import Mathlib

/-!
Verification of the SDSS machine-learning notebook
(`machinelearning3.ipynb`): a shallow embedding of its data-loading,
filtering, scoring and model-selection steps, with theorems checking the
natural-language specification against the code.
-/

/-- A row of the quasar regression table, as selected by `usecols` in the
regression `pd.read_csv` call: columns objid, dered_r, spec_z, u_g_color,
g_r_color, r_i_color, i_z_color, diff_u, diff_g1, diff_i, diff_z.
Numeric values are modelled as rationals. -/
structure QsoRow where
  objid : ℚ
  dered_r : ℚ
  spec_z : ℚ
  u_g_color : ℚ
  g_r_color : ℚ
  r_i_color : ℚ
  i_z_color : ℚ
  diff_u : ℚ
  diff_g1 : ℚ
  diff_i : ℚ
  diff_z : ℚ
deriving DecidableEq

/-- A row of the classification table, as selected by `usecols` in the three
classification `pd.read_csv` calls: the same photometric columns plus the
categorical `class` column (named `cls` here since `class` is reserved). -/
structure SrcRow where
  objid : ℚ
  dered_r : ℚ
  u_g_color : ℚ
  g_r_color : ℚ
  r_i_color : ℚ
  i_z_color : ℚ
  diff_u : ℚ
  diff_g1 : ℚ
  diff_i : ℚ
  diff_z : ℚ
  cls : String
deriving DecidableEq

/-- The boolean row mask of the regression pipeline:
`(qsos["dered_r"] > -9999) & (qsos["g_r_color"] > -10) & (qsos["g_r_color"] < 10)`. -/
def qsoKeep (r : QsoRow) : Bool :=
  decide (r.dered_r > -9999) && decide (r.g_r_color > -10) && decide (r.g_r_color < 10)

/-- `qsos = qsos[mask]`: keep exactly the rows satisfying the mask. -/
def filterQsos (rows : List QsoRow) : List QsoRow :=
  rows.filter qsoKeep

/-- The boolean row mask of the classification pipeline:
`(all_sources["dered_r"] > -9999) & (all_sources["g_r_color"] > -10) & (all_sources["g_r_color"] < 10)`. -/
def srcKeep (r : SrcRow) : Bool :=
  decide (r.dered_r > -9999) && decide (r.g_r_color > -10) && decide (r.g_r_color < 10)

/-- `all_sources = all_sources[mask]`. -/
def filterSources (rows : List SrcRow) : List SrcRow :=
  rows.filter srcKeep

/-- The assembly of the classification dataset:
the quasar table truncated with `[:1000]`, then `append` of the full star
table, then `append` of the full galaxy table, and only then the row filter. -/
def assembleSources (q s g : List SrcRow) : List SrcRow :=
  filterSources (q.take 1000 ++ s ++ g)

/-- Number of rows of `rows` carrying class label `l`. -/
def labelCount (l : String) (rows : List SrcRow) : ℕ :=
  (rows.filter (fun r => r.cls == l)).length

/-- A concrete quasar-class row with innocuous (filter-passing) values. -/
def sampleQsoRow : SrcRow :=
  ⟨1, 0, 0, 0, 0, 0, 0, 0, 0, 0, "QSO"⟩

/-- A concrete star-class row with innocuous (filter-passing) values. -/
def sampleStarRow : SrcRow :=
  ⟨2, 0, 0, 0, 0, 0, 0, 0, 0, 0, "STAR"⟩

/-- C1: in both pipelines a loaded row survives the bad-value filter iff its
`dered_r` exceeds -9999 and its `g_r_color` lies strictly between -10 and 10. -/
theorem claim_C1_filter_iff (qrows : List QsoRow) (r : QsoRow)
    (srows : List SrcRow) (s : SrcRow) :
    (r ∈ filterQsos qrows ↔
      r ∈ qrows ∧ r.dered_r > -9999 ∧ -10 < r.g_r_color ∧ r.g_r_color < 10) ∧
    (s ∈ filterSources srows ↔
      s ∈ srows ∧ s.dered_r > -9999 ∧ -10 < s.g_r_color ∧ s.g_r_color < 10) := by
  constructor
  · simp [filterQsos, qsoKeep, List.mem_filter, and_assoc]
  · simp [filterSources, srcKeep, List.mem_filter, and_assoc]

/-- C7: the classification feature table takes only the first 1000 quasar
rows but all star and all galaxy rows, filtering after concatenation, so the
per-class row counts decompose accordingly and need not be equal: a concrete
input yields one QSO row but two STAR rows. -/
theorem claim_C7_assembly (q s g : List SrcRow) (l : String) :
    (assembleSources q s g = (q.take 1000 ++ s ++ g).filter srcKeep) ∧
    (labelCount l (assembleSources q s g) =
      labelCount l (filterSources (q.take 1000)) +
      labelCount l (filterSources s) +
      labelCount l (filterSources g)) ∧
    labelCount "QSO"
      (assembleSources [sampleQsoRow] [sampleStarRow, sampleStarRow] []) = 1 ∧
    labelCount "STAR"
      (assembleSources [sampleQsoRow] [sampleStarRow, sampleStarRow] []) = 2 := by
  refine ⟨rfl, ?_, by decide, by decide⟩
  simp [assembleSources, filterSources, labelCount, List.filter_append]
  omega

/-- `np.mean(xs)` for a 1-d array: the sum divided by the length. -/
noncomputable def npMean (xs : List ℝ) : ℝ :=
  xs.sum / xs.length

/-- `np.std(xs)` with numpy's default `ddof=0`: the square root of the mean
squared deviation from the mean. -/
noncomputable def npStd (xs : List ℝ) : ℝ :=
  Real.sqrt (npMean (xs.map fun x => (x - npMean xs) ^ 2))

/-- `meanR2 = np.mean(R2)`, the reported 'Mean score'. -/
noncomputable def meanR2 (xs : List ℝ) : ℝ :=
  npMean xs

/-- `errR2 = np.std(R2)/np.sqrt(len(R2))`, the reported error bar. -/
noncomputable def errR2 (xs : List ℝ) : ℝ :=
  npStd xs / Real.sqrt xs.length

/-- `mean_squared_error(y_true, y_pred)`: the mean of the squared residuals. -/
noncomputable def mean_squared_error (yt yp : List ℝ) : ℝ :=
  (List.zipWith (fun a b => (a - b) ^ 2) yt yp).sum / yt.length

/-- `mse_linear = np.sqrt(mean_squared_error(y_test, y_lr_pred))`, printed as
"Linear regression: MSE". -/
noncomputable def mse_linear (yt yp : List ℝ) : ℝ :=
  Real.sqrt (mean_squared_error yt yp)

/-- `mse_knn = mean_squared_error(y_test, y_knn_pred)`, printed as "MSE (KNN)". -/
noncomputable def mse_knn (yt yp : List ℝ) : ℝ :=
  mean_squared_error yt yp

/-- C2: on the three per-fold scores of the 3-fold cross-validation, the
reported 'Mean score' is the arithmetic mean, and the reported error is the
(population) standard deviation divided by the square root of the length 3. -/
theorem claim_C2_mean_score (a b c : ℝ) :
    meanR2 [a, b, c] = (a + b + c) / 3 ∧
    errR2 [a, b, c] =
      Real.sqrt (((a - (a + b + c) / 3) ^ 2 + (b - (a + b + c) / 3) ^ 2 +
        (c - (a + b + c) / 3) ^ 2) / 3) / Real.sqrt 3 := by
  have hm : meanR2 [a, b, c] = (a + b + c) / 3 := by
    simp [meanR2, npMean]
    ring
  refine ⟨hm, ?_⟩
  have h3 : ((List.length [a, b, c] : ℕ) : ℝ) = 3 := by norm_num
  simp only [errR2, npStd, npMean, List.map_cons, List.map_nil, List.sum_cons,
    List.sum_nil, List.length_cons, List.length_nil, meanR2] at *
  norm_num at hm ⊢
  rw [hm]
  ring_nf

/-- C4: the quantity printed as "Linear regression: MSE" is the square root of
the test-set mean squared error, while "MSE (KNN)" is the unrooted mean
squared error; on the concrete input y_test = [0], y_pred = [2] the two
formulas give 2 and 4 respectively, so they differ. -/
theorem claim_C4_rmse_vs_mse (yt yp : List ℝ) :
    mse_linear yt yp = Real.sqrt (mean_squared_error yt yp) ∧
    mse_knn yt yp = mean_squared_error yt yp ∧
    mse_linear [0] [2] = 2 ∧
    mse_knn [0] [2] = 4 := by
  refine ⟨rfl, rfl, ?_, ?_⟩
  · have h4 : mean_squared_error [0] [2] = 4 := by
      simp [mean_squared_error]
      norm_num
    rw [mse_linear, h4, show (4 : ℝ) = 2 ^ 2 by norm_num,
      Real.sqrt_sq (by norm_num : (0 : ℝ) ≤ 2)]
  · simp [mse_knn, mean_squared_error]
    norm_num

/-- The two values of the `weights` hyperparameter in the grid. -/
inductive KnnWeights
  | uniform
  | distance
deriving DecidableEq

/-- One point of the KNN hyperparameter grid: the three keys of `param_grid`. -/
structure KnnParams where
  n_neighbors : ℕ
  weights : KnnWeights
  p : ℕ
deriving DecidableEq

instance : Inhabited KnnParams :=
  ⟨⟨1, KnnWeights.uniform, 1⟩⟩

/-- `param_grid['n_neighbors'] = np.array([1,2,4,8,16,32,64])`. -/
def neighborsGrid : List ℕ :=
  [1, 2, 4, 8, 16, 32, 64]

/-- `param_grid['weights'] = ['uniform','distance']`. -/
def weightsGrid : List KnnWeights :=
  [KnnWeights.uniform, KnnWeights.distance]

/-- `param_grid['p'] = np.array([1,2])`. -/
def pGrid : List ℕ :=
  [1, 2]

/-- The set of candidate estimators visited by `GridSearchCV(KNN, param_grid)`:
the Cartesian product of the three per-key value lists. -/
def paramCandidates : List KnnParams :=
  neighborsGrid.flatMap fun n =>
    weightsGrid.flatMap fun w =>
      pGrid.map fun p => ⟨n, w, p⟩

/-- Keep the better of the running best and each further candidate; a later
candidate replaces the running best only on a strictly higher score, matching
the first-maximum tie-breaking of the search's `best_index_`. -/
def scanBest (score : KnnParams → ℚ) (b : KnnParams) : List KnnParams → KnnParams
  | [] => b
  | c :: rest => scanBest score (if score b < score c then c else b) rest

/-- `KNN_tuned.best_estimator_`: the grid point maximising the
cross-validation score over `paramCandidates`. -/
def knnBest (score : KnnParams → ℚ) : KnnParams :=
  scanBest score paramCandidates.headI paramCandidates.tail

/-- The estimator bound by `KNNz = KNN_tuned.best_estimator_`. -/
def knnzOf (score : KnnParams → ℚ) : KnnParams :=
  knnBest score

/-- A fitted KNN model: which hyperparameters were fit on which data. -/
structure FittedKnn where
  params : KnnParams
  Xtrain : List (List ℚ)
  ytrain : List ℚ
deriving DecidableEq

/-- `KNNz.fit(X_train, y_train)`: the best estimator refit on the training
split. -/
def knnzRefit (score : KnnParams → ℚ) (Xtr : List (List ℚ)) (ytr : List ℚ) :
    FittedKnn :=
  ⟨knnzOf score, Xtr, ytr⟩

/-- `zphoto = KNNz.predict(X_test)`: the model applied to the test split,
recorded as the pair (fitted model, input it predicts on). -/
def zphotoCall (score : KnnParams → ℚ) (Xtr : List (List ℚ)) (ytr : List ℚ)
    (Xte : List (List ℚ)) : FittedKnn × List (List ℚ) :=
  (knnzRefit score Xtr ytr, Xte)

theorem scanBest_mem (score : KnnParams → ℚ) (b : KnnParams)
    (l : List KnnParams) : scanBest score b l = b ∨ scanBest score b l ∈ l := by
  induction l generalizing b with
  | nil => exact Or.inl rfl
  | cons c rest ih =>
    rcases ih (if score b < score c then c else b) with h | h
    · rw [scanBest, h]
      split
      · exact Or.inr (List.mem_cons_self _ _)
      · exact Or.inl rfl
    · exact Or.inr (List.mem_cons_of_mem _ ((scanBest.eq_2 score b c rest) ▸ h))

theorem scanBest_le (score : KnnParams → ℚ) (b : KnnParams)
    (l : List KnnParams) : score b ≤ score (scanBest score b l) ∧
    ∀ c ∈ l, score c ≤ score (scanBest score b l) := by
  induction l generalizing b with
  | nil => exact ⟨le_refl _, by intro c hc; cases hc⟩
  | cons c rest ih =>
    obtain ⟨ihb, ihl⟩ := ih (if score b < score c then c else b)
    have hb : score b ≤ score (if score b < score c then c else b) := by
      split
      · exact le_of_lt (by assumption)
      · exact le_refl _
    have hc : score c ≤ score (if score b < score c then c else b) := by
      split
      · exact le_refl _
      · exact le_of_not_lt (by assumption)
    rw [scanBest]
    refine ⟨le_trans hb ihb, ?_⟩
    intro d hd
    rcases List.mem_cons.mp hd with h | h
    · subst h
      exact le_trans hc ihb
    · exact ihl d h

theorem paramCandidates_cons :
    paramCandidates = paramCandidates.headI :: paramCandidates.tail := rfl

/-- C5: the hyperparameter grid is exactly
n_neighbors ∈ {1,2,4,8,16,32,64} × weights ∈ {uniform,distance} × p ∈ {1,2};
the best estimator of the search lies on the grid and maximises the
cross-validation score there; and the model refit on the training split and
applied to the test split is precisely that best estimator. -/
theorem claim_C5_grid_search (pr : KnnParams) (score : KnnParams → ℚ)
    (Xtr Xte : List (List ℚ)) (ytr : List ℚ) :
    (pr ∈ paramCandidates ↔
      pr.n_neighbors ∈ neighborsGrid ∧ pr.weights ∈ weightsGrid ∧
        pr.p ∈ pGrid) ∧
    knnBest score ∈ paramCandidates ∧
    (pr ∈ paramCandidates → score pr ≤ score (knnBest score)) ∧
    (zphotoCall score Xtr ytr Xte).1 = ⟨knnBest score, Xtr, ytr⟩ ∧
    (zphotoCall score Xtr ytr Xte).2 = Xte := by
  refine ⟨?_, ?_, ?_, rfl, rfl⟩
  · obtain ⟨n, w, p⟩ := pr
    simp only [paramCandidates, List.mem_flatMap, List.mem_map, KnnParams.mk.injEq]
    constructor
    · rintro ⟨n0, hn0, w0, hw0, p0, hp0, he1, he2, he3⟩
      exact ⟨he1 ▸ hn0, he2 ▸ hw0, he3 ▸ hp0⟩
    · rintro ⟨hn, hw, hp⟩
      exact ⟨n, hn, w, hw, p, hp, rfl, rfl, rfl⟩
  · rcases scanBest_mem score paramCandidates.headI paramCandidates.tail with h | h
    · rw [knnBest, h, paramCandidates_cons]
      exact List.mem_cons_self _ _
    · rw [knnBest, paramCandidates_cons]
      exact List.mem_cons_of_mem _ h
  · intro hpr
    obtain ⟨hhead, htail⟩ :=
      scanBest_le score paramCandidates.headI paramCandidates.tail
    rw [paramCandidates_cons] at hpr
    rcases List.mem_cons.mp hpr with h | h
    · exact h ▸ hhead
    · exact htail pr h

/-- Witness for C5 at a concrete grid point and score function. -/
theorem claim_C5_grid_search_witness :
    (⟨4, KnnWeights.uniform, 2⟩ : KnnParams) ∈ paramCandidates ∧
    (fun c : KnnParams => (c.n_neighbors : ℚ)) ⟨4, KnnWeights.uniform, 2⟩ ≤
      (fun c : KnnParams => (c.n_neighbors : ℚ))
        (knnBest fun c => (c.n_neighbors : ℚ)) :=
  ⟨by decide,
    (claim_C5_grid_search ⟨4, KnnWeights.uniform, 2⟩
      (fun c => (c.n_neighbors : ℚ)) [] [] []).2.2.1 (by decide)⟩

/-- The three class labels of the classification problem. -/
def threeLabels : List String :=
  ["QSO", "STAR", "GALAXY"]

/-- The masked assignments building the colour array `yy`:
`yy[yy=="QSO"] = 0.0`, `yy[yy=="STAR"] = 0.5`, `yy[yy=="GALAXY"] = 1.0`.
An entry matching one of the three labels becomes the numeric value; any
other entry is left as the original string. -/
def yyColor (l : String) : String ⊕ ℚ :=
  if l = "QSO" then Sum.inr 0
  else if l = "STAR" then Sum.inr (1/2)
  else if l = "GALAXY" then Sum.inr 1
  else Sum.inl l

/-- `for i,label in enumerate(labels): roc_auc[label] = ...`: the per-class
ROC loop computes one entry for each element of the class list, in order. -/
def rocLoop (R : Type) (classes : List String) (compute : String → R) :
    List (String × R) :=
  classes.map fun l => (l, compute l)

/-- `BestRFselector.classes_`: the distinct labels observed in the training
targets (sklearn computes `np.unique(y)`; only membership matters here, so
order is modelled by first occurrence). -/
def classesOf (y : List String) : List String :=
  y.dedup

/-- C6: the label-to-colour mapping assigns a number for precisely the labels
QSO, STAR and GALAXY; the ROC loop produces entries keyed by exactly the
fitted classifier's classes; and those classes only contain labels present in
the training targets, hence only the three labels when the data carries only
those. -/
theorem claim_C6_three_labels (l : String) (y : List String) (R : Type)
    (compute : String → R) :
    ((yyColor l).isRight = true ↔ l ∈ threeLabels) ∧
    ((rocLoop R (classesOf y) compute).map Prod.fst = classesOf y) ∧
    ((∀ m ∈ y, m ∈ threeLabels) → ∀ m ∈ classesOf y, m ∈ threeLabels) := by
  refine ⟨?_, ?_, ?_⟩
  · unfold yyColor threeLabels
    split_ifs with h1 h2 h3 <;> simp_all
  · rw [rocLoop, List.map_map]
    exact List.map_id _
  · intro hsub m hm
    exact hsub m (List.mem_dedup.mp hm)

/-- Witness for C6 at a concrete label and target list. -/
theorem claim_C6_three_labels_witness :
    (∀ m ∈ (["STAR", "STAR", "GALAXY"] : List String), m ∈ threeLabels) ∧
    (∀ m ∈ classesOf ["STAR", "STAR", "GALAXY"], m ∈ threeLabels) :=
  ⟨by decide,
    (claim_C6_three_labels "QSO" ["STAR", "STAR", "GALAXY"] ℕ
      (fun _ => 0)).2.2 (by decide)⟩

/-- A stand-in for a fitted estimator returned by a library call; its content
is irrelevant to error propagation. -/
structure FitResult where
  tag : ℕ
deriving DecidableEq

/-- The regression run threaded through `Except`: the CSV read may fail
(missing file, malformed row) and the library fit may raise; the notebook
code merely sequences the steps with no handler of its own. -/
def regressionRun (csvRead : Except String (List QsoRow))
    (fitLin : List QsoRow → Except String FitResult) :
    Except String FitResult := do
  let raw ← csvRead
  fitLin (filterQsos raw)

/-- The classification run threaded through `Except`: three CSV reads, the
assembly and filter, then a fallible library fit; again no handler. -/
def classificationRun (qRead sRead gRead : Except String (List SrcRow))
    (fitRF : List SrcRow → Except String FitResult) :
    Except String FitResult := do
  let q ← qRead
  let s ← sRead
  let g ← gRead
  fitRF (assembleSources q s g)

/-- C3: every failure propagates unchanged to the caller: a failed CSV read
aborts the regression run with the same error, a failure of any of the three
classification reads aborts with that error, and a library exception during
fitting aborts with that error; no step recovers or retries. -/
theorem claim_C3_error_propagation (e : String)
    (rows : List QsoRow) (cq cs cg : List SrcRow)
    (fitLin : List QsoRow → Except String FitResult)
    (fitRF : List SrcRow → Except String FitResult) :
    regressionRun (Except.error e) fitLin = Except.error e ∧
    regressionRun (Except.ok rows) (fun _ => Except.error e) = Except.error e ∧
    classificationRun (Except.error e) (Except.ok cs) (Except.ok cg) fitRF =
      Except.error e ∧
    classificationRun (Except.ok cq) (Except.error e) (Except.ok cg) fitRF =
      Except.error e ∧
    classificationRun (Except.ok cq) (Except.ok cs) (Except.error e) fitRF =
      Except.error e ∧
    classificationRun (Except.ok cq) (Except.ok cs) (Except.ok cg)
      (fun _ => Except.error e) = Except.error e := by
  exact ⟨rfl, rfl, rfl, rfl, rfl, rfl⟩

/-- The kinds of external effect an operation of the notebook could perform.
Writing, networking and process spawning are included so that their absence
from the actual trace is a statement with content. -/
inductive ExtEffect
  | readFile (path : String)
  | renderDisplay
  | writeFile (path : String)
  | networkCall (host : String)
  | spawnProcess
deriving DecidableEq

/-- The paths handed to the four `pd.read_csv` calls (the quasar catalog is
read twice, once per pipeline, with differing directory capitalisation). -/
def csvPaths : List String :=
  ["../examples/SDSScatalog/data/qso10000.csv",
   "../examples/SDSSCatalog/data/qso10000.csv",
   "../examples/SDSSCatalog/data/star1000.csv",
   "../examples/SDSSCatalog/data/galaxy1000.csv"]

/-- The ordered trace of external effects of a full notebook run: the
regression read, its figures (histogram, scatter matrix, three prediction
plots, validation curve), then the three classification reads and their
figures (scatter matrix, confusion matrix, ROC curves). -/
def notebookEffects : List ExtEffect :=
  [ExtEffect.readFile "../examples/SDSScatalog/data/qso10000.csv",
   ExtEffect.renderDisplay, ExtEffect.renderDisplay, ExtEffect.renderDisplay,
   ExtEffect.renderDisplay, ExtEffect.renderDisplay, ExtEffect.renderDisplay,
   ExtEffect.readFile "../examples/SDSSCatalog/data/qso10000.csv",
   ExtEffect.readFile "../examples/SDSSCatalog/data/star1000.csv",
   ExtEffect.readFile "../examples/SDSSCatalog/data/galaxy1000.csv",
   ExtEffect.renderDisplay, ExtEffect.renderDisplay, ExtEffect.renderDisplay]

/-- The spec's allowed interface: reading one of the catalog CSV files or
rendering to the interactive display. -/
def allowedEffect (e : ExtEffect) : Bool :=
  match e with
  | ExtEffect.readFile p => p ∈ csvPaths
  | ExtEffect.renderDisplay => true
  | _ => false

/-- Does an effect write a file? -/
def writesFile (e : ExtEffect) : Bool :=
  match e with
  | ExtEffect.writeFile _ => true
  | _ => false

/-- Does an effect use the network? -/
def usesNetwork (e : ExtEffect) : Bool :=
  match e with
  | ExtEffect.networkCall _ => true
  | _ => false

/-- C8: every external effect of the run is a read of one of the catalog CSV
paths or a render to the display; no effect writes a file or touches the
network. -/
theorem claim_C8_external_effects :
    notebookEffects.all allowedEffect = true ∧
    notebookEffects.any writesFile = false ∧
    notebookEffects.any usesNetwork = false := by
  refine ⟨by decide, by decide, by decide⟩

/-- A pandas DataFrame modelled as its list of named columns. -/
abbrev DataFrame : Type :=
  List (String × List ℚ)

/-- Does the frame have a column of this name? -/
def hasCol (df : DataFrame) (c : String) : Bool :=
  df.any fun p => p.1 == c

/-- The values of a named column, when present. -/
def getCol (df : DataFrame) (c : String) : Option (List ℚ) :=
  (df.find? fun p => p.1 == c).map Prod.snd

/-- `copy.copy(df)` on a DataFrame dispatches to `DataFrame.__copy__`, which
returns a deep copy: an independent value. -/
def pandasCopy (df : DataFrame) : DataFrame :=
  df

/-- `del df[c]`: drop the column named `c` in place. -/
def delColumn (df : DataFrame) (c : String) : DataFrame :=
  df.filter fun p => !(p.1 == c)

/-- A heap of DataFrame objects addressed by references, with an allocation
counter, so that Python's object aliasing is visible in the model. -/
structure PyHeap where
  store : ℕ → DataFrame
  next : ℕ

/-- Variable bindings: a name maps to the reference it is bound to. -/
def PyEnv : Type :=
  String → Option ℕ

/-- The two statement forms the feature-table construction uses. -/
inductive PyStmt
  | assignCopy (dst src : String)
  | delCol (v : String) (c : String)

/-- Update the heap at one reference. -/
def updStore (h : ℕ → DataFrame) (r : ℕ) (df : DataFrame) : ℕ → DataFrame :=
  fun r2 => if r2 = r then df else h r2

/-- Bind a variable to a reference. -/
def updEnv (e : PyEnv) (x : String) (r : ℕ) : PyEnv :=
  fun y => if y = x then some r else e y

/-- One step of execution: `dst = copy.copy(src)` allocates a fresh object
holding the copy and binds `dst` to it; `del v[c]` mutates the object that
`v` is bound to. -/
def stepStmt : PyEnv × PyHeap → PyStmt → PyEnv × PyHeap
  | (env, mem), PyStmt.assignCopy dst src =>
    match env src with
    | some r =>
      (updEnv env dst mem.next,
       ⟨updStore mem.store mem.next (pandasCopy (mem.store r)), mem.next + 1⟩)
    | none => (env, mem)
  | (env, mem), PyStmt.delCol v c =>
    match env v with
    | some r =>
      (env, ⟨updStore mem.store r (delColumn (mem.store r) c), mem.next⟩)
    | none => (env, mem)

/-- Run a statement list from an initial environment and heap. -/
def runStmts (s : PyEnv × PyHeap) (prog : List PyStmt) : PyEnv × PyHeap :=
  prog.foldl stepStmt s

/-- The feature-table construction from the source, for either pipeline:
`dst = copy.copy(src)` followed by `del dst[target]` (instantiated as
`qso_features`/`qsos`/`spec_z` and `all_features`/`all_sources`/`class`). -/
def featureScript (dst src target : String) : List PyStmt :=
  [PyStmt.assignCopy dst src, PyStmt.delCol dst target]

theorem hasCol_delColumn (df : DataFrame) (c : String) :
    hasCol (delColumn df c) c = false := by
  simp [hasCol, delColumn, List.any_eq_true, List.mem_filter]

/-- C9: running `dst = copy.copy(src); del dst[target]` leaves the object that
`src` is bound to untouched: it still holds the target column with its
original values (so target vectors extracted earlier stay consistent), while
the freshly allocated copy bound to `dst` no longer has the column. -/
theorem claim_C9_copy_del (env : PyEnv) (mem : PyHeap) (r : ℕ)
    (dst src target : String) (hs : env src = some r) (hd : src ≠ dst)
    (hr : r < mem.next) :
    ((runStmts (env, mem) (featureScript dst src target)).2.store r =
      mem.store r) ∧
    ((runStmts (env, mem) (featureScript dst src target)).1 src = some r) ∧
    (hasCol (mem.store r) target = true →
      hasCol ((runStmts (env, mem) (featureScript dst src target)).2.store r)
        target = true) ∧
    (getCol ((runStmts (env, mem) (featureScript dst src target)).2.store r)
      target = getCol (mem.store r) target) ∧
    ((runStmts (env, mem) (featureScript dst src target)).1 dst =
      some mem.next) ∧
    (hasCol ((runStmts (env, mem) (featureScript dst src target)).2.store
      mem.next) target = false) := by
  have hstep : runStmts (env, mem) (featureScript dst src target) =
      (updEnv env dst mem.next,
       ⟨updStore (updStore mem.store mem.next (mem.store r)) mem.next
          (delColumn (updStore mem.store mem.next (mem.store r) mem.next)
            target),
        mem.next + 1⟩) := by
    simp [runStmts, featureScript, stepStmt, hs, pandasCopy, updEnv]
  have hne : r ≠ mem.next := Nat.ne_of_lt hr
  have hpreserve :
      updStore (updStore mem.store mem.next (mem.store r)) mem.next
        (delColumn (updStore mem.store mem.next (mem.store r) mem.next)
          target) r = mem.store r := by
    simp [updStore, hne]
  refine ⟨?_, ?_, ?_, ?_, ?_, ?_⟩
  · rw [hstep]
    exact hpreserve
  · rw [hstep]
    show updEnv env dst mem.next src = some r
    unfold updEnv
    rw [if_neg hd]
    exact hs
  · intro h
    rw [hstep]
    show hasCol
      (updStore (updStore mem.store mem.next (mem.store r)) mem.next
        (delColumn (updStore mem.store mem.next (mem.store r) mem.next)
          target) r) target = true
    rw [hpreserve]
    exact h
  · rw [hstep]
    show getCol
      (updStore (updStore mem.store mem.next (mem.store r)) mem.next
        (delColumn (updStore mem.store mem.next (mem.store r) mem.next)
          target) r) target = getCol (mem.store r) target
    rw [hpreserve]
  · rw [hstep]
    show updEnv env dst mem.next dst = some mem.next
    unfold updEnv
    rw [if_pos rfl]
  · rw [hstep]
    show hasCol
      (updStore (updStore mem.store mem.next (mem.store r)) mem.next
        (delColumn (updStore mem.store mem.next (mem.store r) mem.next)
          target) mem.next) target = false
    simp [updStore, hasCol_delColumn]

/-- A concrete variable environment binding only `qsos`, to reference 0. -/
def witnessEnv : PyEnv :=
  fun x => if x = "qsos" then some 0 else none

/-- A concrete two-column frame holding a `spec_z` column. -/
def witnessFrame : DataFrame :=
  [("spec_z", [1]), ("dered_r", [3])]

/-- A concrete heap whose only allocated object is `witnessFrame`. -/
def witnessHeap : PyHeap :=
  ⟨fun _ => witnessFrame, 1⟩

/-- Witness for C9 on the concrete environment and heap. -/
theorem claim_C9_copy_del_witness :
    witnessEnv "qsos" = some 0 ∧ ("qsos" : String) ≠ "qso_features" ∧
    0 < witnessHeap.next ∧
    ((runStmts (witnessEnv, witnessHeap)
        (featureScript "qso_features" "qsos" "spec_z")).2.store 0 =
      witnessHeap.store 0) :=
  ⟨by decide, by decide, by decide,
    (claim_C9_copy_del witnessEnv witnessHeap 0 "qso_features" "qsos" "spec_z"
      (by decide) (by decide) (by decide)).1⟩
